import Mathlib

/-!
Verification development for the ai-therapist-agent repository.

The repository ships a README sketch of a crisis keyword detector
(`detectStressSignals`), a Next.js configuration, an Express server
bootstrap, a MongoDB connector and a vendored Inngest Express adapter.
The Stress-Signal Detector itself (Signal Matcher, Risk Scorer,
Escalation Policy) is specified but not implemented in the sources, so
it is modelled here from the specification; the configuration, server
bootstrap and adapter are embedded from the source files.
-/

set_option maxRecDepth 4000

namespace Detector

/-- Modelled from the spec: the discrete risk tiers, an ordered
enumeration NONE < LOW < MODERATE < HIGH < CRITICAL (spec section 3). -/
inductive Tier where
  | NONE
  | LOW
  | MODERATE
  | HIGH
  | CRITICAL
deriving DecidableEq, Repr

/-- Modelled from the spec: the escalation actions
(spec section 3, EscalationDirective). -/
inductive Action where
  | NO_ACTION
  | SUGGEST_RESOURCES
  | NOTIFY_COUNSELOR
  | TRIGGER_CRISIS_PROTOCOL
deriving DecidableEq, Repr

/-- Modelled from the spec: a SignalDefinition
{id, literal pattern, category, weight} (spec section 3); the lexicon
entry shape for the README keyword list. -/
structure SignalDefinition where
  id : String
  pattern : String
  category : String
  weight : Nat
deriving DecidableEq, Repr

/-- Modelled from the spec: a SignalMatch
{signalId, category, weight, position} (spec section 3). -/
structure SignalMatch where
  signalId : String
  category : String
  weight : Nat
  position : Nat
deriving DecidableEq, Repr

/-- Modelled from the spec: a RiskAssessment
{score, tier, matchedCategories} (spec section 3). -/
structure RiskAssessment where
  score : Nat
  tier : Tier
  matchedCategories : List String
deriving DecidableEq, Repr

/-- Modelled from the spec: an EscalationDirective
{tier, action, message} plus the error flag of the fail-safe policy
(spec sections 3 and 4.3). -/
structure EscalationDirective where
  tier : Tier
  action : Action
  message : String
  errorFlag : Bool
deriving DecidableEq, Repr

/-- Modelled from the spec: the tier thresholds are configuration
constants (spec section 4.2): score 0 gives NONE, 1-2 LOW, 3-5
MODERATE, 6-9 HIGH, 10+ CRITICAL. -/
structure TierThresholds where
  low : Nat
  moderate : Nat
  high : Nat
  critical : Nat
deriving DecidableEq, Repr

/-- Modelled from the spec: the default threshold fixture of
spec section 4.2. -/
def defaultThresholds : TierThresholds :=
  { low := 1, moderate := 3, high := 6, critical := 10 }

/-- Modelled from the spec: tier is a pure deterministic function of
score via the fixed thresholds (spec section 3 invariant). -/
def tierOfScore (s : Nat) : Tier :=
  if s < defaultThresholds.low then Tier.NONE
  else if s < defaultThresholds.moderate then Tier.LOW
  else if s < defaultThresholds.high then Tier.MODERATE
  else if s < defaultThresholds.critical then Tier.HIGH
  else Tier.CRITICAL

/-- Modelled from the spec: the static SignalDefinition lexicon, loaded
once at startup. The keyword literals are the README's
`detectStressSignals` list; categories follow the spec's examples
(anxiety, panic, despair), the weights are the spec's placeholder
severities, and a CRITICAL-weighted despair term is present as required
by the spec's testable properties (spec sections 3, 4.2 and 8). -/
def signalLexicon : List SignalDefinition :=
  [ { id := "stress", pattern := "stress", category := "anxiety", weight := 2 }
  , { id := "anxiety", pattern := "anxiety", category := "anxiety", weight := 2 }
  , { id := "worried", pattern := "worried", category := "anxiety", weight := 1 }
  , { id := "panic", pattern := "panic", category := "panic", weight := 3 }
  , { id := "overwhelmed", pattern := "overwhelmed", category := "despair", weight := 2 }
  , { id := "nervous", pattern := "nervous", category := "anxiety", weight := 1 }
  , { id := "tense", pattern := "tense", category := "anxiety", weight := 1 }
  , { id := "pressure", pattern := "pressure", category := "anxiety", weight := 1 }
  , { id := "suicide", pattern := "suicide", category := "despair", weight := 10 } ]

/-- Modelled from the spec: normalization before comparison, here
case folding of the text (spec section 4.1). -/
def normalize (s : String) : List Char :=
  s.data.map Char.toLower

/-- Modelled from the spec: a word character for tokenization-aware
boundary checks (spec section 4.1). -/
def isWordChar (c : Char) : Bool :=
  c.isAlpha || c.isDigit

/-- Does the pattern occur literally at the head of the text? -/
def patternAt : List Char → List Char → Bool
  | [], _ => true
  | _ :: _, [] => false
  | p :: ps, c :: cs => p == c && patternAt ps cs

/-- All positions at which the pattern occurs with a word boundary
immediately before it; `prev` is the character preceding the scan
position, if any. -/
def occurrencesAux (pat : List Char) : List Char → Nat → Option Char → List Nat
  | [], _, _ => []
  | c :: rest, pos, prev =>
    let boundary : Bool :=
      match prev with
      | none => true
      | some p => !isWordChar p
    let tail := occurrencesAux pat rest (pos + 1) (some c)
    if boundary && patternAt pat (c :: rest) then pos :: tail else tail

/-- Modelled from the spec: case-insensitive word-boundary occurrence
search for one pattern; a word boundary stands before each match, so
"stressed" contains "stress" at a boundary while "compressed" does not
(spec section 4.1). -/
def occurrences (pat : List Char) (text : List Char) : List Nat :=
  occurrencesAux pat text 0 none

/-- Modelled from the spec: the matches one SignalDefinition produces
on a text, one SignalMatch per occurrence (spec section 4.1). -/
def matchesForSignal (text : List Char) (s : SignalDefinition) : List SignalMatch :=
  (occurrences (normalize s.pattern) text).map fun p =>
    { signalId := s.id, category := s.category, weight := s.weight, position := p }

/-- Modelled from the spec: all matches of the lexicon on a text, the
lexicon scanned in order. -/
def collectMatches (text : List Char) : List SignalDefinition → List SignalMatch
  | [] => []
  | s :: rest => matchesForSignal text s ++ collectMatches text rest

/-- Insert a match into a list sorted by ascending position. -/
def insertByPos (m : SignalMatch) : List SignalMatch → List SignalMatch
  | [] => [m]
  | x :: xs => if m.position ≤ x.position then m :: x :: xs else x :: insertByPos m xs

/-- Insertion sort of matches by ascending position. -/
def sortByPos : List SignalMatch → List SignalMatch
  | [] => []
  | x :: xs => insertByPos x (sortByPos xs)

/-- Modelled from the spec: the Signal Matcher; given raw text it
produces the ordered sequence of SignalMatch, by position of occurrence
(spec section 4.1). -/
def signalMatches (text : String) : List SignalMatch :=
  sortByPos (collectMatches (normalize text) signalLexicon)

/-- Modelled from the spec: does the text contain any lexicon term at
all (a word-boundary occurrence of some pattern)? -/
def hasLexiconTerm (text : String) : Bool :=
  signalLexicon.any fun s => !(occurrences (normalize s.pattern) (normalize text)).isEmpty

/-- Insert a weight into a list sorted in descending order. -/
def insertDesc (w : Nat) : List Nat → List Nat
  | [] => [w]
  | x :: xs => if x ≤ w then w :: x :: xs else x :: insertDesc w xs

/-- Insertion sort of weights in descending order, so that the heaviest
occurrence of a category contributes first and at full weight. -/
def sortDesc : List Nat → List Nat
  | [] => []
  | x :: xs => insertDesc x (sortDesc xs)

/-- Modelled from the spec: the weights of all occurrences matched
within one category (spec section 4.2). -/
def categoryOccurrenceWeights (ms : List SignalMatch) (c : String) : List Nat :=
  (ms.filter fun m => m.category == c).map fun m => m.weight

/-- Modelled from the spec: repetition-dampened aggregation of a list
of occurrence weights; the occurrence at index j contributes its weight
divided by 2 to the j, so the first occurrence counts in full and
repeated occurrences within a category contribute a geometrically
diminishing fraction (spec section 4.2). -/
def dampenedSum : List Nat → Nat → Nat
  | [], _ => 0
  | w :: ws, j => w / 2 ^ j + dampenedSum ws (j + 1)

/-- Modelled from the spec: the score contribution of one matched
category, its occurrence weights taken heaviest first with dampening
(spec section 4.2). -/
def categoryContribution (ms : List SignalMatch) (c : String) : Nat :=
  dampenedSum (sortDesc (categoryOccurrenceWeights ms c)) 0

/-- Modelled from the spec: the unique categories matched, in order of
first occurrence (spec section 4.2). -/
def matchedCategories (ms : List SignalMatch) : List String :=
  (ms.map fun m => m.category).dedup

/-- Modelled from the spec: the Risk Scorer aggregate; score is the sum
over unique matched categories of the category's dampened contribution
(spec section 4.2). -/
def riskScore (ms : List SignalMatch) : Nat :=
  ((matchedCategories ms).map (categoryContribution ms)).sum

/-- Modelled from the spec: the boundary operation
assess(text) giving a RiskAssessment (spec sections 4.2 and 6). -/
def assess (text : String) : RiskAssessment :=
  let ms := signalMatches text
  { score := riskScore ms
  , tier := tierOfScore (riskScore ms)
  , matchedCategories := matchedCategories ms }

/-- Modelled from the spec: the graceful action ladder of the
Escalation Policy; CRITICAL always triggers the crisis protocol and
lower tiers degrade to softer actions (spec section 4.3). -/
def actionForTier : Tier → Action
  | Tier.NONE => Action.NO_ACTION
  | Tier.LOW => Action.SUGGEST_RESOURCES
  | Tier.MODERATE => Action.SUGGEST_RESOURCES
  | Tier.HIGH => Action.NOTIFY_COUNSELOR
  | Tier.CRITICAL => Action.TRIGGER_CRISIS_PROTOCOL

/-- Modelled from the spec: the templated human-readable directive
message per tier (spec section 3). -/
def messageForTier : Tier → String
  | Tier.NONE => "No risk signals detected."
  | Tier.LOW => "Mild stress signals detected; resources may help."
  | Tier.MODERATE => "Moderate stress signals detected; suggesting resources."
  | Tier.HIGH => "High risk signals detected; notifying a counselor."
  | Tier.CRITICAL => "Critical risk detected; triggering crisis protocol."

/-- Modelled from the spec: escalate(assessment) deterministically
selects an EscalationDirective from the tier (spec sections 4.3 and 6). -/
def escalate (a : RiskAssessment) : EscalationDirective :=
  { tier := a.tier
  , action := actionForTier a.tier
  , message := messageForTier a.tier
  , errorFlag := false }

/-- Modelled from the spec: an unexpected internal fault during
scoring, carrying its diagnostic text (spec section 7). -/
structure InternalFault where
  diagnostic : String
deriving DecidableEq, Repr

/-- Modelled from the spec: the conservative fallback directive used on
any internal failure; fail-safe-toward-caution, so the most
conservative non-NONE action together with the error flag
(spec section 4.3). -/
def conservativeFallback (a : RiskAssessment) : EscalationDirective :=
  { tier := a.tier
  , action := Action.TRIGGER_CRISIS_PROTOCOL
  , message := "Internal scoring fault; escalating conservatively."
  , errorFlag := true }

/-- Modelled from the spec: the full escalation entry point; any
internal fault raised during scoring is caught locally and converted to
the conservative fallback directive, never propagated to the caller
(spec sections 4.3 and 7). -/
def escalateSafe (fault : Option InternalFault) (a : RiskAssessment) : EscalationDirective :=
  match fault with
  | some _ => conservativeFallback a
  | none => escalate a

/-- Modelled from the spec: a message consisting of the same term
repeated n times, space separated (spec section 8, repetition
dampening). -/
def repeatMsg (term : String) (n : Nat) : String :=
  String.intercalate " " (List.replicate n term)

/-- The "stress" entry of the lexicon, a low-weight term. -/
def stressSignal : SignalDefinition :=
  { id := "stress", pattern := "stress", category := "anxiety", weight := 2 }

end Detector

namespace Server

/-- The required environment variables the bootstrap validates before
anything else (src/unnamed/part_000 line 68). -/
def requiredEnvVars : List String :=
  ["DATABASE_URL", "PORT"]

/-- A process environment: each variable name maps to its value when
set. -/
def Env : Type := String → Option String

/-- JavaScript falsiness of `process.env[varName]`: an unset variable
is `undefined` (falsy) and the empty string is the only falsy string. -/
def envFalsy : Option String → Bool
  | none => true
  | some s => s == ""

/-- The events of the bootstrap sequence in src/unnamed/part_000:
module-level validation throw, Express app creation, MongoDB
connection, listen, or process exit. -/
inductive StartupEvent where
  | envThrow (varName : String)
  | appCreated
  | dbConnected
  | serverListening (port : String)
  | processExit (code : Nat)
deriving DecidableEq, Repr

/-- `const PORT = process.env.PORT || 3001` — the left operand is taken
unless it is falsy (src/unnamed/part_000 line 76). -/
inductive PortValue where
  | fromEnv (s : String)
  | fallback (n : Nat)
deriving DecidableEq, Repr

/-- The PORT constant of src/unnamed/part_000 line 76. -/
def portConstant (env : Env) : PortValue :=
  match env "PORT" with
  | none => PortValue.fallback 3001
  | some s => if s == "" then PortValue.fallback 3001 else PortValue.fromEnv s

/-- Render the PORT constant as the string used in the listen log. -/
def portString (env : Env) : String :=
  match portConstant env with
  | PortValue.fromEnv s => s
  | PortValue.fallback n => toString n

/-- Did the module-level validation loop of src/unnamed/part_000 lines
69-73 pass (no required variable falsy)? -/
def envValidationPasses (env : Env) : Bool :=
  requiredEnvVars.all fun v => !envFalsy (env v)

/-- The bootstrap sequence of src/unnamed/part_000: validate required
environment variables (throwing on the first falsy one, before the
Express app is created), create the app, then connect to MongoDB and
listen, or exit with code 1 when the connection fails
(src/unnamed/part_000 lines 67-136, src/unnamed/part_001 lines 5-14).
`mongoConnects` abstracts whether `mongoose.connect` succeeds. -/
def startupTrace (env : Env) (mongoConnects : Bool) : List StartupEvent :=
  match requiredEnvVars.find? (fun v => envFalsy (env v)) with
  | some v => [StartupEvent.envThrow v]
  | none =>
    StartupEvent.appCreated ::
      (if mongoConnects then
        [StartupEvent.dbConnected, StartupEvent.serverListening (portString env)]
      else
        [StartupEvent.processExit 1])

/-- Is the server serving requests at the end of the trace? -/
def serving (trace : List StartupEvent) : Bool :=
  trace.any fun e =>
    match e with
    | StartupEvent.serverListening _ => true
    | _ => false

end Server

namespace NextConfig

/-- Does the pattern occur literally at the head of the text? -/
def subAt : List Char → List Char → Bool
  | [], _ => true
  | _ :: _, [] => false
  | p :: ps, c :: cs => p == c && subAt ps cs

/-- Does the pattern occur as a contiguous substring of the text? -/
def containsSub (sub : List Char) : List Char → Bool
  | [] => sub.isEmpty
  | c :: cs => subAt sub (c :: cs) || containsSub sub cs

/-- JavaScript `String.prototype.includes`: does `sub` occur as a
contiguous substring of `s`? -/
def jsIncludes (s sub : String) : Bool :=
  containsSub sub.data s.data

/-- The pageExtensions value of the Next.js configuration:
`["tsx", "ts", "jsx", "js"].filter((ext) => !ext.includes("spec"))`
(src/unnamed/part_000 lines 20-22). -/
def pageExtensions : List String :=
  ["tsx", "ts", "jsx", "js"].filter fun ext => !jsIncludes ext "spec"

end NextConfig

namespace Inngest

/-- A JavaScript value as it appears for an Express header or query
entry: undefined, a single string, or an array of strings. -/
inductive JsVal where
  | undef
  | str (s : String)
  | arr (xs : List String)
deriving DecidableEq, Repr

/-- `Array.isArray` on a JsVal. -/
def JsVal.isArray : JsVal → Bool
  | JsVal.arr _ => true
  | _ => false

/-- Indexing `v[0]` on a JavaScript array: the first element, or
undefined when the array is empty. -/
def firstElement : List String → JsVal
  | [] => JsVal.undef
  | x :: _ => JsVal.str x

/-- The incoming Express request as the vendored adapter reads it:
header and query maps from key to value. -/
structure Request where
  headers : String → JsVal
  query : String → JsVal

/-- The adapter's headers accessor:
`const header = req.headers[key]; return Array.isArray(header) ?
header[0] : header;` (src/node_modules/inngest/express.js lines 63-66). -/
def headersAccessor (req : Request) (key : String) : JsVal :=
  let header := req.headers key
  if header.isArray then
    match header with
    | JsVal.arr xs => firstElement xs
    | v => v
  else header

/-- The adapter's queryString accessor:
`const qs = req.query[key]; return Array.isArray(qs) ? qs[0] : qs;`
(src/node_modules/inngest/express.js lines 77-80). -/
def queryStringAccessor (req : Request) (key : String) : JsVal :=
  let qs := req.query key
  if qs.isArray then
    match qs with
    | JsVal.arr xs => firstElement xs
    | v => v
  else qs

end Inngest

namespace Fixtures

/-- An environment in which no variable is set. -/
def envEmpty : Server.Env := fun _ => none

/-- An environment in which every variable is set to a nonempty value. -/
def envFull : Server.Env := fun _ => some "5000"

/-- A sample request whose header values are arrays and whose query
values are plain strings. -/
def reqSample : Inngest.Request :=
  { headers := fun _ => Inngest.JsVal.arr ["a", "b"]
  , query := fun _ => Inngest.JsVal.str "q" }

end Fixtures

namespace Detector

theorem mem_insertByPos (a m : SignalMatch) (l : List SignalMatch) :
    a ∈ insertByPos m l ↔ a = m ∨ a ∈ l := by
  induction l with
  | nil => simp [insertByPos]
  | cons x xs ih =>
    by_cases h : m.position ≤ x.position
    · simp [insertByPos, h]
    · simp only [insertByPos, if_neg h, List.mem_cons, ih]
      tauto

theorem mem_sortByPos (a : SignalMatch) (l : List SignalMatch) :
    a ∈ sortByPos l ↔ a ∈ l := by
  induction l with
  | nil => simp [sortByPos]
  | cons x xs ih => simp [sortByPos, mem_insertByPos, ih]

theorem headD_insertDesc (w : Nat) (l : List Nat) :
    (insertDesc w l).headD 0 = max w (l.headD 0) := by
  cases l with
  | nil => simp [insertDesc]
  | cons x xs =>
    by_cases h : x ≤ w
    · simp [insertDesc, h, Nat.max_eq_left h]
    · have hw : w ≤ x := Nat.le_of_lt (Nat.lt_of_not_le h)
      simp [insertDesc, h, Nat.max_eq_right hw]

theorem le_headD_sortDesc (w : Nat) (ws : List Nat) (h : w ∈ ws) :
    w ≤ (sortDesc ws).headD 0 := by
  induction ws with
  | nil => cases h
  | cons x xs ih =>
    rw [sortDesc, headD_insertDesc]
    rcases List.mem_cons.mp h with h | h
    · exact h ▸ Nat.le_max_left _ _
    · exact Nat.le_trans (ih h) (Nat.le_max_right _ _)

theorem headD_le_dampenedSum (l : List Nat) : l.headD 0 ≤ dampenedSum l 0 := by
  cases l with
  | nil => simp [dampenedSum]
  | cons w ws =>
    simp only [dampenedSum, List.headD_cons, pow_zero, Nat.div_one]
    exact Nat.le_add_right _ _

theorem weight_le_categoryContribution (m : SignalMatch) (ms : List SignalMatch)
    (h : m ∈ ms) : m.weight ≤ categoryContribution ms m.category := by
  have hw : m.weight ∈ categoryOccurrenceWeights ms m.category := by
    refine List.mem_map.mpr ⟨m, List.mem_filter.mpr ⟨h, ?_⟩, rfl⟩
    exact beq_self_eq_true m.category
  exact Nat.le_trans (le_headD_sortDesc _ _ hw) (headD_le_dampenedSum _)

theorem le_sum_map_of_mem {α : Type} (f : α → Nat) (l : List α) (a : α)
    (h : a ∈ l) : f a ≤ (l.map f).sum := by
  induction l with
  | nil => cases h
  | cons x xs ih =>
    rcases List.mem_cons.mp h with h | h
    · simp [h, List.sum_cons, Nat.le_add_right]
    · simp only [List.map_cons, List.sum_cons]
      exact Nat.le_trans (ih h) (Nat.le_add_left _ _)

theorem weight_le_riskScore (m : SignalMatch) (ms : List SignalMatch)
    (h : m ∈ ms) : m.weight ≤ riskScore ms := by
  have hc : m.category ∈ matchedCategories ms :=
    List.mem_dedup.mpr (List.mem_map_of_mem (fun m => m.category) h)
  exact Nat.le_trans (weight_le_categoryContribution m ms h)
    (le_sum_map_of_mem (categoryContribution ms) _ _ hc)

theorem tierOfScore_critical (s : Nat) (h : defaultThresholds.critical ≤ s) :
    tierOfScore s = Tier.CRITICAL := by
  have h10 : (10 : Nat) ≤ s := h
  show (if s < 1 then Tier.NONE
    else if s < 3 then Tier.LOW
    else if s < 6 then Tier.MODERATE
    else if s < 10 then Tier.HIGH
    else Tier.CRITICAL) = Tier.CRITICAL
  rw [if_neg (by omega), if_neg (by omega), if_neg (by omega), if_neg (by omega)]

theorem collectMatches_eq_nil (text : List Char) (lex : List SignalDefinition)
    (h : ∀ s ∈ lex, occurrences (normalize s.pattern) text = []) :
    collectMatches text lex = [] := by
  induction lex with
  | nil => rfl
  | cons s rest ih =>
    have hs : occurrences (normalize s.pattern) text = [] :=
      h s (List.mem_cons_self s rest)
    simp only [collectMatches, matchesForSignal, hs, List.map_nil, List.nil_append]
    exact ih fun x hx => h x (List.mem_cons_of_mem s hx)

/-- Claim C1: for every input text whose matches contain exactly one
occurrence of a CRITICAL-weighted lexicon term, assess yields tier
CRITICAL, and for every RiskAssessment with tier CRITICAL, escalate
returns TRIGGER_CRISIS_PROTOCOL regardless of any other context of the
assessment, on every call. -/
theorem critical_term_forces_crisis_protocol (t : String)
    (h : (signalMatches t).countP
      (fun m => defaultThresholds.critical ≤ m.weight) = 1) :
    (assess t).tier = Tier.CRITICAL ∧
    ∀ a : RiskAssessment, a.tier = Tier.CRITICAL →
      (escalate a).action = Action.TRIGGER_CRISIS_PROTOCOL := by
  constructor
  · have hpos : 0 < (signalMatches t).countP
        (fun m => defaultThresholds.critical ≤ m.weight) := by
      rw [h]; exact Nat.one_pos
    obtain ⟨m, hm, hw⟩ := List.countP_pos_iff.mp hpos
    have hw' : defaultThresholds.critical ≤ m.weight := of_decide_eq_true hw
    have hscore : defaultThresholds.critical ≤ riskScore (signalMatches t) :=
      Nat.le_trans hw' (weight_le_riskScore m _ hm)
    show tierOfScore (riskScore (signalMatches t)) = Tier.CRITICAL
    exact tierOfScore_critical _ hscore
  · intro a ha
    show actionForTier a.tier = Action.TRIGGER_CRISIS_PROTOCOL
    rw [ha]
    rfl

set_option maxRecDepth 100000 in
set_option maxHeartbeats 2000000 in
/-- Witness for C1 at a concrete text containing exactly one
CRITICAL-weighted term. -/
theorem critical_term_forces_crisis_protocol_witness :
    (signalMatches "I have been thinking about suicide").countP
      (fun m => defaultThresholds.critical ≤ m.weight) = 1 ∧
    (assess "I have been thinking about suicide").tier = Tier.CRITICAL ∧
    (escalate (assess "I have been thinking about suicide")).action =
      Action.TRIGGER_CRISIS_PROTOCOL := by
  refine ⟨by decide, ?_⟩
  have h := critical_term_forces_crisis_protocol
    "I have been thinking about suicide" (by decide)
  exact ⟨h.1, h.2 _ h.1⟩

/-- Claim C2: escalateSafe is total — it returns some
EscalationDirective on every input — and on any internal fault the
returned directive carries the most conservative non-NONE action
together with the error flag; it is never a silent NO_ACTION and the
fault is never propagated. -/
theorem escalation_failsafe_total (a : RiskAssessment) (fault : Option InternalFault) :
    (∃ d : EscalationDirective, escalateSafe fault a = d) ∧
    ∀ e : InternalFault,
      (escalateSafe (some e) a).action = Action.TRIGGER_CRISIS_PROTOCOL ∧
      (escalateSafe (some e) a).action ≠ Action.NO_ACTION ∧
      (escalateSafe (some e) a).errorFlag = true := by
  refine ⟨⟨escalateSafe fault a, rfl⟩, fun e => ⟨rfl, ?_, rfl⟩⟩
  show Action.TRIGGER_CRISIS_PROTOCOL ≠ Action.NO_ACTION
  intro hcontra
  cases hcontra

/-- Claim C3: assess is deterministic — identical texts yield identical
RiskAssessments — and tier is a function of score via the fixed
thresholds. -/
theorem assess_deterministic (t u : String) :
    (u = t → assess u = assess t) ∧
    (assess t).tier = tierOfScore ((assess t).score) :=
  ⟨fun h => h ▸ rfl, rfl⟩

/-- Witness for C3 at a concrete text. -/
theorem assess_deterministic_witness :
    assess "hello" = assess "hello" ∧
    (assess "hello").tier = tierOfScore ((assess "hello").score) :=
  ⟨(assess_deterministic "hello" "hello").1 rfl,
   (assess_deterministic "hello" "hello").2⟩

/-- Claim C4: for every text containing no lexicon terms, the Signal
Matcher produces an empty sequence of SignalMatch, assess succeeds with
tier NONE and score 0, and the escalation action is NO_ACTION. -/
theorem no_terms_no_action (t : String) (h : hasLexiconTerm t = false) :
    signalMatches t = [] ∧
    assess t = { score := 0, tier := Tier.NONE, matchedCategories := [] } ∧
    (escalate (assess t)).action = Action.NO_ACTION := by
  have hocc : ∀ s ∈ signalLexicon,
      occurrences (normalize s.pattern) (normalize t) = [] := by
    intro s hs
    have h' : signalLexicon.any
        (fun s => !(occurrences (normalize s.pattern) (normalize t)).isEmpty) = false := h
    have h2 := List.any_eq_false.mp h' s hs
    simpa using h2
  have hnil : signalMatches t = [] := by
    show sortByPos (collectMatches (normalize t) signalLexicon) = []
    rw [collectMatches_eq_nil _ _ hocc]
    rfl
  have hassess : assess t = { score := 0, tier := Tier.NONE, matchedCategories := [] } := by
    have hrepr : assess t =
        { score := riskScore (signalMatches t)
        , tier := tierOfScore (riskScore (signalMatches t))
        , matchedCategories := matchedCategories (signalMatches t) } := rfl
    rw [hrepr, hnil]
    rfl
  refine ⟨hnil, hassess, ?_⟩
  rw [hassess]
  rfl

/-- Witness for C4 at the empty string. -/
theorem no_terms_no_action_witness :
    hasLexiconTerm "" = false ∧ signalMatches "" = [] ∧
    (escalate (assess "")).action = Action.NO_ACTION :=
  ⟨by decide, (no_terms_no_action "" (by decide)).1,
   (no_terms_no_action "" (by decide)).2.2⟩

set_option maxRecDepth 100000 in
set_option maxHeartbeats 2000000 in
/-- Claim C5: word-boundary, case-insensitive matching — "stressed"
produces a match for the "stress" signal while "compressed" produces no
match for that signal. -/
theorem word_boundary_matching :
    (signalMatches "I feel stressed").countP
      (fun m => m.signalId == "stress") = 1 ∧
    (signalMatches "my files were compressed").countP
      (fun m => m.signalId == "stress") = 0 := by
  decide

set_option maxRecDepth 100000 in
set_option maxHeartbeats 4000000 in
/-- Claim C6: bounded score growth under repetition — every low-weight
lexicon term repeated 50 times in one message is assessed strictly
below the CRITICAL tier, because repeated occurrences within one
category contribute dampened weight. -/
theorem repetition_dampening_bounded :
    ∀ s ∈ signalLexicon, s.weight ≤ 2 →
      (assess (repeatMsg s.pattern 50)).tier ≠ Tier.CRITICAL := by
  decide

set_option maxRecDepth 100000 in
set_option maxHeartbeats 2000000 in
/-- Witness for C6 at the "stress" lexicon entry. -/
theorem repetition_dampening_bounded_witness :
    stressSignal ∈ signalLexicon ∧ stressSignal.weight ≤ 2 ∧
    (assess (repeatMsg stressSignal.pattern 50)).tier ≠ Tier.CRITICAL :=
  ⟨by decide, by decide,
   repetition_dampening_bounded stressSignal (by decide) (by decide)⟩

end Detector

namespace Server

/-- Claim C7: missing startup configuration is fatal — an unset
DATABASE_URL or PORT makes startup throw before the Express app is
created, and a failed MongoDB connection makes the process exit with
code 1; in neither case does the server begin serving requests. -/
theorem startup_refuses_bad_config (env : Env) (mongoConnects : Bool) :
    ((env "DATABASE_URL" = none ∨ env "PORT" = none) →
      (∃ v, startupTrace env mongoConnects = [StartupEvent.envThrow v]) ∧
      StartupEvent.appCreated ∉ startupTrace env mongoConnects ∧
      serving (startupTrace env mongoConnects) = false) ∧
    (envValidationPasses env = true → mongoConnects = false →
      startupTrace env mongoConnects =
        [StartupEvent.appCreated, StartupEvent.processExit 1] ∧
      serving (startupTrace env mongoConnects) = false) := by
  constructor
  · intro h
    cases hdb : envFalsy (env "DATABASE_URL") with
    | true =>
      have htr : startupTrace env mongoConnects =
          [StartupEvent.envThrow "DATABASE_URL"] := by
        unfold startupTrace requiredEnvVars
        simp [List.find?, hdb]
      rw [htr]
      exact ⟨⟨"DATABASE_URL", rfl⟩, by decide, rfl⟩
    | false =>
      have hport : env "PORT" = none := by
        rcases h with h | h
        · rw [h] at hdb
          simp [envFalsy] at hdb
        · exact h
      have hpf : envFalsy (env "PORT") = true := by rw [hport]; rfl
      have htr : startupTrace env mongoConnects =
          [StartupEvent.envThrow "PORT"] := by
        unfold startupTrace requiredEnvVars
        simp [List.find?, hdb, hpf]
      rw [htr]
      exact ⟨⟨"PORT", rfl⟩, by decide, rfl⟩
  · intro hv hm
    have hall := List.all_eq_true.mp hv
    have hdb : envFalsy (env "DATABASE_URL") = false := by
      have := hall "DATABASE_URL" (by simp [requiredEnvVars])
      simpa using this
    have hp : envFalsy (env "PORT") = false := by
      have := hall "PORT" (by simp [requiredEnvVars])
      simpa using this
    have htr : startupTrace env mongoConnects =
        [StartupEvent.appCreated, StartupEvent.processExit 1] := by
      unfold startupTrace requiredEnvVars
      simp [List.find?, hdb, hp, hm]
    rw [htr]
    exact ⟨rfl, rfl⟩

/-- Witness for C7: an empty environment makes startup throw, and a
full environment with a failing MongoDB connection exits with code 1. -/
theorem startup_refuses_bad_config_witness :
    ((∃ v, startupTrace Fixtures.envEmpty true = [StartupEvent.envThrow v]) ∧
      StartupEvent.appCreated ∉ startupTrace Fixtures.envEmpty true ∧
      serving (startupTrace Fixtures.envEmpty true) = false) ∧
    (startupTrace Fixtures.envFull false =
        [StartupEvent.appCreated, StartupEvent.processExit 1] ∧
      serving (startupTrace Fixtures.envFull false) = false) :=
  ⟨(startup_refuses_bad_config Fixtures.envEmpty true).1 (Or.inl rfl),
   (startup_refuses_bad_config Fixtures.envFull false).2 rfl rfl⟩

/-- Claim C8: once the startup environment validation has passed, the
PORT constant equals process.env.PORT exactly and the 3001 fallback
branch of `process.env.PORT || 3001` is unreachable. -/
theorem port_fallback_unreachable (env : Env)
    (h : envValidationPasses env = true) :
    ∃ s, env "PORT" = some s ∧ portConstant env = PortValue.fromEnv s ∧
      ∀ n, portConstant env ≠ PortValue.fallback n := by
  have hp : envFalsy (env "PORT") = false := by
    have := List.all_eq_true.mp h "PORT" (by simp [requiredEnvVars])
    simpa using this
  cases hport : env "PORT" with
  | none =>
    rw [hport] at hp
    simp [envFalsy] at hp
  | some s =>
    have hs : (s == "") = false := by
      rw [hport] at hp
      simpa [envFalsy] using hp
    have hpc : portConstant env = PortValue.fromEnv s := by
      unfold portConstant
      rw [hport]
      simp [hs]
    exact ⟨s, rfl, hpc, fun n hc => by rw [hpc] at hc; cases hc⟩

/-- Witness for C8 at a concrete environment passing validation. -/
theorem port_fallback_unreachable_witness :
    envValidationPasses Fixtures.envFull = true ∧
    ∃ s, Fixtures.envFull "PORT" = some s ∧
      portConstant Fixtures.envFull = PortValue.fromEnv s ∧
      ∀ n, portConstant Fixtures.envFull ≠ PortValue.fallback n :=
  ⟨rfl, port_fallback_unreachable Fixtures.envFull rfl⟩

end Server

namespace NextConfig

/-- Claim C9: the configured pageExtensions value equals exactly
["tsx", "ts", "jsx", "js"] — the filter removes no element because none
of the four extension strings contains the substring "spec". -/
theorem pageExtensions_filter_removes_nothing :
    pageExtensions = ["tsx", "ts", "jsx", "js"] ∧
    (["tsx", "ts", "jsx", "js"] : List String).all
      (fun ext => !jsIncludes ext "spec") = true := by
  decide

end NextConfig

namespace Inngest

theorem firstElement_not_array (xs : List String) :
    (firstElement xs).isArray = false := by
  cases xs <;> rfl

theorem headersAccessor_arr (req : Request) (key : String) (xs : List String)
    (h : req.headers key = JsVal.arr xs) :
    headersAccessor req key = firstElement xs := by
  simp [headersAccessor, h, JsVal.isArray]

theorem headersAccessor_not_array_id (req : Request) (key : String)
    (h : (req.headers key).isArray = false) :
    headersAccessor req key = req.headers key := by
  simp [headersAccessor, h]

theorem queryStringAccessor_arr (req : Request) (key : String) (xs : List String)
    (h : req.query key = JsVal.arr xs) :
    queryStringAccessor req key = firstElement xs := by
  simp [queryStringAccessor, h, JsVal.isArray]

theorem queryStringAccessor_not_array_id (req : Request) (key : String)
    (h : (req.query key).isArray = false) :
    queryStringAccessor req key = req.query key := by
  simp [queryStringAccessor, h]

/-- Claim C10: for every request and key, the adapter's headers and
queryString accessors never return an array — an array value yields its
first element and any other value is returned unchanged, possibly
undefined. -/
theorem accessors_never_return_array (req : Request) (key : String) :
    (headersAccessor req key).isArray = false ∧
    (queryStringAccessor req key).isArray = false ∧
    (∀ xs, req.headers key = JsVal.arr xs →
      headersAccessor req key = firstElement xs) ∧
    ((req.headers key).isArray = false →
      headersAccessor req key = req.headers key) ∧
    (∀ xs, req.query key = JsVal.arr xs →
      queryStringAccessor req key = firstElement xs) ∧
    ((req.query key).isArray = false →
      queryStringAccessor req key = req.query key) := by
  refine ⟨?_, ?_, fun xs h => headersAccessor_arr req key xs h,
    fun h => headersAccessor_not_array_id req key h,
    fun xs h => queryStringAccessor_arr req key xs h,
    fun h => queryStringAccessor_not_array_id req key h⟩
  · cases h : req.headers key with
    | undef => rw [headersAccessor_not_array_id req key (by rw [h]; rfl), h]; rfl
    | str s => rw [headersAccessor_not_array_id req key (by rw [h]; rfl), h]; rfl
    | arr xs => rw [headersAccessor_arr req key xs h]; exact firstElement_not_array xs
  · cases h : req.query key with
    | undef => rw [queryStringAccessor_not_array_id req key (by rw [h]; rfl), h]; rfl
    | str s => rw [queryStringAccessor_not_array_id req key (by rw [h]; rfl), h]; rfl
    | arr xs => rw [queryStringAccessor_arr req key xs h]; exact firstElement_not_array xs

/-- Witness for C10 at a concrete request with an array header value
and a plain string query value. -/
theorem accessors_never_return_array_witness :
    headersAccessor Fixtures.reqSample "k" = firstElement ["a", "b"] ∧
    queryStringAccessor Fixtures.reqSample "k" = Fixtures.reqSample.query "k" :=
  ⟨(accessors_never_return_array Fixtures.reqSample "k").2.2.1 ["a", "b"] rfl,
   (accessors_never_return_array Fixtures.reqSample "k").2.2.2.2.2 rfl⟩

end Inngest
